import Mathlib

/-!
Verification of `src/security/secure_code_executor.py`.

This file shallowly embeds the data model and the operations of the module:
the AST security analyzer (`ASTSecurityAnalyzer`), the resource monitor's
memory check (`ResourceMonitor.check_memory_usage`), and the execution
orchestrator (`SecureCodeExecutor.execute_code`), and proves or refutes the
specification's claims about them.

Modelling conventions:
- Python exceptions are values of `PyExc`; the distinction between
  `Exception`-class errors (caught by `except Exception`) and
  `BaseException`-only errors such as `SystemExit` / `KeyboardInterrupt`
  (not caught) is carried by `PyExc.isExceptionClass`.
- `ast.parse` is a parameter `parse : String -> Except String PyAST`
  (success, or the `SyntaxError` message that `analyze` catches).
- Python `set` objects are `Finset String`; `list(set)` enumeration order is
  abstracted away since equal sets enumerate equally within one process.
- The dynamic execution of a compiled snippet (`compile` + `exec`) is a
  parameter `run : String -> locals -> RunBehavior`, which can terminate
  normally, raise, or diverge.  The orchestrator's own control flow around
  it is embedded literally from the source.
- Wall-clock time (`execution_time`) and the `traceback` string are omitted
  from outcomes: no embedded claim depends on their values.
-/

/-- A Python exception value, tagged by which `except` clause of
`SecureCodeExecutor.execute_code` would catch it.  `baseExc` stands for a
`BaseException` that is not an `Exception` (e.g. `SystemExit`,
`KeyboardInterrupt`); no `except Exception` clause catches those.
`memoryLimit` is modelled from the spec: `core.exceptions.MemoryLimitError`
is not under `src/`; per the spec (sections 4.2 and 7) it is an ordinary
recoverable error carrying the configured limit and the observed usage in
the same unit (MB), so it is an `Exception`-class error here. -/
inductive PyExc where
  | syntaxError (msg : String)
  | nameError (msg : String)
  | keyError (msg : String)
  | attributeError (msg : String)
  | importError (msg : String)
  | valueError (msg : String)
  | typeError (msg : String)
  | indexError (msg : String)
  | memoryLimit (limit_mb usage_mb : Nat)
  | otherExc (typeName msg : String)
  | baseExc (typeName msg : String)
deriving DecidableEq, Repr

/-- Whether `except Exception` catches this exception (everything except
`BaseException`-only classes). -/
def PyExc.isExceptionClass : PyExc → Bool
  | .baseExc _ _ => false
  | _ => true

/-- A Python abstract syntax tree, restricted to the shapes
`ASTSecurityAnalyzer` inspects: `Import` statements (the list of dotted
alias names), `ImportFrom` statements (the optional module name), `Call`
expressions (recording the callee name only when the callee is a plain
name node, plus the subtree the generic visitor recurses into),
`Attribute` expressions (the attribute name plus subtree), and the generic
tree structure (`seq` / `leaf`) every other node contributes. -/
inductive PyAST where
  | importStmt (names : List String)
  | importFrom (module : Option String)
  | callNode (funcName : Option String) (child : PyAST)
  | attributeNode (attr : String) (child : PyAST)
  | seq (a b : PyAST)
  | leaf
deriving DecidableEq, Repr

/-- The characters of a dotted name before the first dot. -/
def head_before_dot : List Char → List Char
  | [] => []
  | c :: cs => if c = '.' then [] else c :: head_before_dot cs

/-- `alias.name.split('.')[0]` / `node.module.split('.')[0]` from
`visit_Import` / `visit_ImportFrom`: the leading segment before the first
dot (the whole name when it has no dot, empty when the name starts with a
dot, exactly as in Python). -/
def module_head (name : String) : String :=
  String.mk (head_before_dot name.data)

/-- The mutable state of an `ASTSecurityAnalyzer` instance
(`__init__`, lines 48-58): `self.violations`, `self.imports`,
`self.function_calls`, `self.attribute_accesses`.  The four
`dangerous_*` / `allowed_modules` configuration sets are initialised empty
and never read anywhere in the module, so they are not carried here. -/
structure ASTSecurityAnalyzer where
  violations : List String
  imports : Finset String
  function_calls : Finset String
  attribute_accesses : Finset String
deriving DecidableEq

/-- A fresh analyzer, as built by `ASTSecurityAnalyzer.__init__`. -/
def ASTSecurityAnalyzer.freshAnalyzer : ASTSecurityAnalyzer :=
  { violations := [], imports := ∅, function_calls := ∅, attribute_accesses := ∅ }

/-- The node visitor (`visit_Import`, `visit_ImportFrom`, `visit_Call`,
`visit_Attribute`, plus `generic_visit` recursion): records names into the
instance's sets and never appends a violation. -/
def ASTSecurityAnalyzer.visit (self : ASTSecurityAnalyzer) : PyAST → ASTSecurityAnalyzer
  | .importStmt names =>
      names.foldl
        (fun st n => { st with imports := insert (module_head n) st.imports }) self
  | .importFrom m =>
      match m with
      | some mod => { self with imports := insert (module_head mod) self.imports }
      | none => self
  | .callNode f child =>
      match f with
      | some fn =>
          ASTSecurityAnalyzer.visit
            { self with function_calls := insert fn self.function_calls } child
      | none => ASTSecurityAnalyzer.visit self child
  | .attributeNode attr child =>
      ASTSecurityAnalyzer.visit
        { self with attribute_accesses := insert attr self.attribute_accesses } child
  | .seq a b => ASTSecurityAnalyzer.visit (ASTSecurityAnalyzer.visit self a) b
  | .leaf => self

/-- The report dictionary returned by `ASTSecurityAnalyzer.analyze`
(lines 98-118).  `syntax_error` is `none` when the key is absent
(successful parse) and `some msg` when parsing failed. -/
structure PolicyReport where
  safe : Bool
  violations : List String
  imports : Finset String
  function_calls : Finset String
  attribute_accesses : Finset String
  risk_level : String
  recommendations : List String
  syntax_error : Option String
deriving DecidableEq

/-- `ASTSecurityAnalyzer.analyze` (lines 91-118): parse, visit on success
(mutating the instance's sets), and build the report.  On a parse failure
the state is untouched and the report's collections are empty lists. -/
def ASTSecurityAnalyzer.analyze (parse : String → Except String PyAST)
    (self : ASTSecurityAnalyzer) (code : String) :
    ASTSecurityAnalyzer × PolicyReport :=
  match parse code with
  | .ok tree =>
      let st := ASTSecurityAnalyzer.visit self tree
      (st,
        { safe := true
          violations := []
          imports := st.imports
          function_calls := st.function_calls
          attribute_accesses := st.attribute_accesses
          risk_level := "none"
          recommendations := []
          syntax_error := none })
  | .error e =>
      (self,
        { safe := true
          violations := []
          imports := ∅
          function_calls := ∅
          attribute_accesses := ∅
          risk_level := "none"
          recommendations := []
          syntax_error := some e })

/-- All module heads an `Import` node's alias list contributes. -/
def import_names_set (names : List String) : Finset String :=
  names.foldl (fun acc n => insert (module_head n) acc) ∅

/-- The set of module names a tree contributes to `self.imports`. -/
def collect_imports : PyAST → Finset String
  | .importStmt names => import_names_set names
  | .importFrom (some mod) => {module_head mod}
  | .importFrom none => ∅
  | .callNode _ child => collect_imports child
  | .attributeNode _ child => collect_imports child
  | .seq a b => collect_imports a ∪ collect_imports b
  | .leaf => ∅

/-- The set of callee names a tree contributes to `self.function_calls`. -/
def collect_calls : PyAST → Finset String
  | .importStmt _ => ∅
  | .importFrom _ => ∅
  | .callNode (some fn) child => insert fn (collect_calls child)
  | .callNode none child => collect_calls child
  | .attributeNode _ child => collect_calls child
  | .seq a b => collect_calls a ∪ collect_calls b
  | .leaf => ∅

/-- The set of attribute names a tree contributes to
`self.attribute_accesses`. -/
def collect_attrs : PyAST → Finset String
  | .importStmt _ => ∅
  | .importFrom _ => ∅
  | .callNode _ child => collect_attrs child
  | .attributeNode attr child => insert attr (collect_attrs child)
  | .seq a b => collect_attrs a ∪ collect_attrs b
  | .leaf => ∅

lemma foldl_insert_union (f : String → String) (names : List String) (s : Finset String) :
    names.foldl (fun acc n => insert (f n) acc) s
      = s ∪ names.foldl (fun acc n => insert (f n) acc) ∅ := by
  induction names generalizing s with
  | nil => simp
  | cons n ns ih =>
      simp only [List.foldl_cons]
      rw [ih (insert (f n) s), ih (insert (f n) ∅)]
      ext x
      simp [Finset.mem_union, Finset.mem_insert]
      tauto

lemma foldl_imports_state (names : List String) (self : ASTSecurityAnalyzer) :
    names.foldl
        (fun st n => { st with imports := insert (module_head n) st.imports }) self
      = { self with imports := self.imports ∪ import_names_set names } := by
  induction names generalizing self with
  | nil => simp [import_names_set]
  | cons n ns ih =>
      obtain ⟨v, im, fc, aa⟩ := self
      simp only [List.foldl_cons]
      rw [ih]
      simp only [import_names_set, List.foldl_cons]
      rw [foldl_insert_union module_head ns (insert (module_head n) ∅)]
      congr 1
      all_goals
        first
        | rfl
        | (ext x
           simp [Finset.mem_union, Finset.mem_insert]
           try tauto)

/-- Characterisation of the visitor: it leaves `violations` alone and
unions each collection with what the tree contributes. -/
lemma visit_eq (self : ASTSecurityAnalyzer) (t : PyAST) :
    ASTSecurityAnalyzer.visit self t
      = { violations := self.violations
          imports := self.imports ∪ collect_imports t
          function_calls := self.function_calls ∪ collect_calls t
          attribute_accesses := self.attribute_accesses ∪ collect_attrs t } := by
  induction t generalizing self with
  | importStmt names =>
      simp only [ASTSecurityAnalyzer.visit, collect_imports, collect_calls, collect_attrs]
      rw [foldl_imports_state]
      cases self
      simp
  | importFrom m =>
      cases m with
      | some mod =>
          obtain ⟨v, im, fc, aa⟩ := self
          simp only [ASTSecurityAnalyzer.visit, collect_imports, collect_calls, collect_attrs]
          congr 1
          all_goals
            first
            | rfl
            | (ext x
               simp [Finset.mem_union, Finset.mem_insert]
               try tauto)
      | none =>
          cases self
          simp [ASTSecurityAnalyzer.visit, collect_imports, collect_calls, collect_attrs]
  | callNode f child ih =>
      cases f with
      | some fn =>
          obtain ⟨v, im, fc, aa⟩ := self
          simp only [ASTSecurityAnalyzer.visit, collect_imports, collect_calls, collect_attrs]
          rw [ih]
          congr 1
          all_goals
            first
            | rfl
            | (ext x
               simp [Finset.mem_union, Finset.mem_insert]
               try tauto)
      | none =>
          simp only [ASTSecurityAnalyzer.visit, collect_imports, collect_calls, collect_attrs]
          rw [ih]
  | attributeNode attr child ih =>
      obtain ⟨v, im, fc, aa⟩ := self
      simp only [ASTSecurityAnalyzer.visit, collect_imports, collect_calls, collect_attrs]
      rw [ih]
      congr 1
      all_goals
        first
        | rfl
        | (ext x
           simp [Finset.mem_union, Finset.mem_insert]
           try tauto)
  | seq a b iha ihb =>
      simp only [ASTSecurityAnalyzer.visit]
      rw [iha, ihb]
      simp [collect_imports, collect_calls, collect_attrs, Finset.union_assoc]
  | leaf =>
      cases self
      simp [ASTSecurityAnalyzer.visit, collect_imports, collect_calls, collect_attrs]

/-- A concrete stand-in for `ast.parse` used by counterexamples and
witnesses: two well-formed texts and everything else a syntax error. -/
def toyParse : String → Except String PyAST
  | "import os" => Except.ok (PyAST.importStmt ["os"])
  | "import sys" => Except.ok (PyAST.importStmt ["sys"])
  | _ => Except.error "invalid syntax"

/-- C6: for every input string, well-formed or malformed, `analyze`
returns a report (the embedded function is total, matching the
`except SyntaxError` that guards `ast.parse`) whose `safe` field is true,
whose violations list is empty and whose risk level is `none`; a parse
error is recorded in the separate `syntax_error` field rather than raised
or counted as a violation. -/
theorem c6_analyze_always_safe_report (parse : String → Except String PyAST)
    (self : ASTSecurityAnalyzer) (code : String) :
    ((ASTSecurityAnalyzer.analyze parse self code).2).safe = true
    ∧ ((ASTSecurityAnalyzer.analyze parse self code).2).violations = []
    ∧ ((ASTSecurityAnalyzer.analyze parse self code).2).risk_level = "none"
    ∧ ((ASTSecurityAnalyzer.analyze parse self code).2).syntax_error
        = (match parse code with
           | Except.ok _ => none
           | Except.error e => some e) := by
  cases h : parse code <;> simp [ASTSecurityAnalyzer.analyze, h]

/-- C7 counterexample: `analyze` is not a pure function of its input text.
Analyzing `"import os"` first changes the report a later
`analyze "import sys"` call returns (its `imports` set has accumulated
`"os"`), so the same text yields different reports depending on hidden
instance state. -/
theorem c7_counterexample :
    (ASTSecurityAnalyzer.analyze toyParse ASTSecurityAnalyzer.freshAnalyzer
        "import sys").2
      ≠ (ASTSecurityAnalyzer.analyze toyParse
          (ASTSecurityAnalyzer.analyze toyParse ASTSecurityAnalyzer.freshAnalyzer
              "import os").1
          "import sys").2 := by
  decide

/-- C7 (amended): calling `analyze` twice in immediate succession on the
same text yields identical report values (re-visiting a tree inserts only
names already present in the instance's sets), even though `analyze` is
not a pure function of the text alone. -/
theorem c7_analyze_same_text_idempotent (parse : String → Except String PyAST)
    (self : ASTSecurityAnalyzer) (code : String) :
    (ASTSecurityAnalyzer.analyze parse
        (ASTSecurityAnalyzer.analyze parse self code).1 code).2
      = (ASTSecurityAnalyzer.analyze parse self code).2 := by
  cases h : parse code with
  | error e => simp [ASTSecurityAnalyzer.analyze, h]
  | ok t =>
      simp only [ASTSecurityAnalyzer.analyze, h]
      simp [visit_eq, Finset.union_assoc]

/-- C10 counterexample: the report of a later `analyze` call does not
always include the names recorded by earlier calls: when the later text
fails to parse, the report's collections are empty even though the
instance state still holds the earlier names. -/
theorem c10_counterexample :
    "os" ∈ ((ASTSecurityAnalyzer.analyze toyParse ASTSecurityAnalyzer.freshAnalyzer
        "import os").1).imports
    ∧ "os" ∉ ((ASTSecurityAnalyzer.analyze toyParse
        (ASTSecurityAnalyzer.analyze toyParse ASTSecurityAnalyzer.freshAnalyzer
            "import os").1
        "not python )(").2).imports := by
  decide

/-- C10 (amended): on a single analyzer instance the `imports`,
`function_calls` and `attribute_accesses` collections grow monotonically
across `analyze` calls (they are never cleared), and whenever a later call
parses successfully its report includes every name recorded by all earlier
calls on that instance. -/
theorem c10_collections_grow_monotonically (parse : String → Except String PyAST)
    (self : ASTSecurityAnalyzer) (code : String) :
    self.imports ⊆ ((ASTSecurityAnalyzer.analyze parse self code).1).imports
    ∧ self.function_calls
        ⊆ ((ASTSecurityAnalyzer.analyze parse self code).1).function_calls
    ∧ self.attribute_accesses
        ⊆ ((ASTSecurityAnalyzer.analyze parse self code).1).attribute_accesses
    ∧ ∀ t, parse code = Except.ok t →
        (self.imports ⊆ ((ASTSecurityAnalyzer.analyze parse self code).2).imports
         ∧ self.function_calls
             ⊆ ((ASTSecurityAnalyzer.analyze parse self code).2).function_calls
         ∧ self.attribute_accesses
             ⊆ ((ASTSecurityAnalyzer.analyze parse self code).2).attribute_accesses) := by
  cases h : parse code with
  | error e =>
      simp [ASTSecurityAnalyzer.analyze, h]
  | ok t =>
      simp [ASTSecurityAnalyzer.analyze, h, visit_eq]

/-- C10 witness: an instance that has already recorded `"os"` reports it
again from a later successful `analyze` call on a different text. -/
theorem c10_witness :
    "os" ∈ ((ASTSecurityAnalyzer.analyze toyParse
        ⟨[], {"os"}, ∅, ∅⟩ "import sys").2).imports := by
  have h := c10_collections_grow_monotonically toyParse ⟨[], {"os"}, ∅, ∅⟩ "import sys"
  exact (h.2.2.2 (PyAST.importStmt ["sys"]) rfl).1 (by decide)

/-- The result dictionary of `SecureCodeExecutor._check_code_security`
(lines 352-378): in the fully open mode it is a constant
`allowed = True` record (the internal `except` path cannot fire, since the
body only builds this literal). -/
structure SecurityCheckResult where
  allowed : Bool
  warnings : List String
  reason : String
deriving DecidableEq, Repr

/-- `SecureCodeExecutor._check_code_security`. -/
def check_code_security (_code : String) : SecurityCheckResult :=
  { allowed := true, warnings := [], reason := "完全开放模式：允许所有代码执行" }

/-- `k.startswith('_')`: whether the first character is an underscore. -/
def starts_with_underscore (k : String) : Bool :=
  match k.data with
  | [] => false
  | c :: _ => c = '_'

/-- `safe_locals.get('result')`: the value bound to a key in a locals
mapping, `none` when absent. -/
def dict_get {V : Type} (fl : List (String × V)) (k : String) : Option V :=
  (fl.find? (fun kv => kv.1 == k)).map (fun kv => kv.2)

/-- Whether the pattern char list occurs contiguously at the head. -/
def leading_match : List Char → List Char → Bool
  | _, [] => true
  | [], _ :: _ => false
  | c :: cs, p :: ps => (c = p) && leading_match cs ps

/-- Whether the pattern char list occurs contiguously anywhere. -/
def occurs_in : List Char → List Char → Bool
  | [], p => p.isEmpty
  | c :: rest, p => leading_match (c :: rest) p || occurs_in rest p

/-- Python `pattern in s` on strings. -/
def contains_sub (s pat : String) : Bool :=
  occurs_in s.data pat.data

/-- Python `s.lower()` (ASCII case folding suffices for the keywords the
orchestrator matches against). -/
def lower_string (s : String) : String :=
  String.mk (s.data.map Char.toLower)

/-- The suggestion chosen by the generic `except Exception` handler
(lines 570-581) by matching the failure message against known
substrings. -/
def suggestion_for_generic (msg : String) : String :=
  let lower := lower_string msg
  if contains_sub lower "pandas" then "pandas相关错误，检查DataFrame操作和列名"
  else if contains_sub lower "numpy" then "numpy相关错误，检查数组操作和数据类型"
  else if contains_sub lower "permission" then "权限错误，检查文件访问权限"
  else if contains_sub lower "memory" then "内存不足，尝试处理较小的数据集"
  else if contains_sub lower "timeout" then "执行超时，优化代码性能或增加超时时间"
  else "代码执行失败，请检查代码逻辑和语法"

/-- Modelled from the spec: the message a `core.exceptions.MemoryLimitError`
carries (the class is not under `src/`); per spec section 4.2 it names both
the configured limit and the observed usage in MB. -/
def memory_limit_message (limit_mb usage_mb : Nat) : String :=
  "memory limit exceeded: limit " ++ toString limit_mb
    ++ " MB, usage " ++ toString usage_mb ++ " MB"

/-- `str(e)` for an embedded exception. -/
def PyExc.excMessage : PyExc → String
  | .syntaxError m => m
  | .nameError m => m
  | .keyError m => m
  | .attributeError m => m
  | .importError m => m
  | .valueError m => m
  | .typeError m => m
  | .indexError m => m
  | .memoryLimit l u => memory_limit_message l u
  | .otherExc _ m => m
  | .baseExc _ m => m

/-- `type(e).__name__` for an embedded exception. -/
def PyExc.excTypeName : PyExc → String
  | .syntaxError _ => "SyntaxError"
  | .nameError _ => "NameError"
  | .keyError _ => "KeyError"
  | .attributeError _ => "AttributeError"
  | .importError _ => "ImportError"
  | .valueError _ => "ValueError"
  | .typeError _ => "TypeError"
  | .indexError _ => "IndexError"
  | .memoryLimit _ _ => "MemoryLimitError"
  | .otherExc t _ => t
  | .baseExc t _ => t

/-- The result dictionary `SecureCodeExecutor.execute_code` returns:
either the success dictionary of lines 453-459 (`output`, `result`,
`locals`; `execution_time` omitted, see the module docstring) or one of
the failure dictionaries of lines 400-404 and 461-591 (`error`,
`message`, and, except for `EmptyCode`, a `suggestion` and the `output`
captured so far; `traceback` omitted). -/
inductive ExecOutcome (V : Type) where
  | success (output : String) (result : Option V) (finalLocals : List (String × V))
  | failure (error : String) (message : String)
      (suggestion : Option String) (output : Option String)
deriving DecidableEq

/-- The behaviour of one `compile` + `exec` attempt on a given text and
starting locals: normal termination (with the final locals and the text
appended to the output buffer), an exception (with the locals at raise
time and the partial output), or divergence. -/
inductive RunBehavior (V : Type) where
  | ok (finalLocals : List (String × V)) (output : String)
  | raises (e : PyExc) (localsAfter : List (String × V)) (output : String)
  | diverges
deriving DecidableEq

/-- What a call to `execute_code` does, seen from its caller: return a
result dictionary, let an exception propagate out, or never return. -/
inductive ExecResult (V : Type) where
  | outcome (o : ExecOutcome V)
  | propagated (e : PyExc)
  | diverges
deriving DecidableEq

/-- The engine steps `execute_code` invokes, in order, used to state that
the empty-input fast path skips all of them. -/
inductive ExecEvent where
  | securityCheck
  | preprocessText
  | buildNamespace
  | execAttempt (text : String)
deriving DecidableEq, Repr

/-- The success dictionary of lines 445-459: full captured output, the
value bound to the reserved name `result` (absence is not an error), and
the final locals restricted to names that do not start with `_`. -/
def success_outcome {V : Type} (out : String) (fl : List (String × V)) : ExecOutcome V :=
  ExecOutcome.success out (dict_get fl "result")
    (fl.filter (fun kv => !(starts_with_underscore kv.1)))

/-- The failure dictionary built by the `except` chain of lines 461-591
for an `Exception`-class error: the eight specific handlers each attach
their canned suggestion; the final `except Exception` uses the error's
type name and a suggestion matched against the message.  (A
`BaseException`-only error never reaches these handlers; the arm is
present only for totality.) -/
def failure_outcome {V : Type} (e : PyExc) (out : String) : ExecOutcome V :=
  match e with
  | .syntaxError m =>
      ExecOutcome.failure "SyntaxError" m
        (some "检查代码语法，特别是字符串引号和转义字符") (some out)
  | .nameError m =>
      ExecOutcome.failure "NameError" m
        (some "检查变量名拼写，确保变量已正确定义") (some out)
  | .keyError m =>
      ExecOutcome.failure "KeyError" m
        (some "检查字典键名或DataFrame列名是否存在") (some out)
  | .attributeError m =>
      ExecOutcome.failure "AttributeError" m
        (some "检查对象是否具有所调用的属性或方法") (some out)
  | .importError m =>
      ExecOutcome.failure "ImportError" m
        (some "检查模块是否已安装，使用pip install安装缺失的模块") (some out)
  | .valueError m =>
      ExecOutcome.failure "ValueError" m
        (some "检查数据类型转换和数值范围是否正确") (some out)
  | .typeError m =>
      ExecOutcome.failure "TypeError" m
        (some "检查函数参数类型和数量是否正确") (some out)
  | .indexError m =>
      ExecOutcome.failure "IndexError" m
        (some "检查列表或数组索引是否超出范围") (some out)
  | e =>
      ExecOutcome.failure (PyExc.excTypeName e) (PyExc.excMessage e)
        (some (suggestion_for_generic (PyExc.excMessage e))) (some out)

/-- `SecureCodeExecutor.execute_code` (lines 380-591), parametrised by the
two collaborators the claims quantify over: `preprocess` (the composite
string-repair-plus-regex step of lines 295-350, consumed per spec section
1 as a pure text-to-text function) and `run` (one `compile` + `exec`
attempt).  Control flow embedded from the source:
empty / whitespace-only input returns the `EmptyCode` dictionary before
any other step (lines 398-404); otherwise the security check (always
allowed), the preprocessing and the namespace construction run, the
preprocessed text is executed, and on an `Exception`-class failure the
original text is executed once when it differs from the preprocessed text
(lines 427-442); the `except` chain (lines 461-591) converts
`Exception`-class errors into failure dictionaries, while
`BaseException`-only errors and non-termination pass the boundary.
The second component records which engine steps were invoked. -/
def execute_code {V : Type} (preprocess : String → String)
    (run : String → List (String × V) → RunBehavior V)
    (code : String) (context : List (String × V)) :
    ExecResult V × List ExecEvent :=
  if code = "" ∨ code.data.all Char.isWhitespace = true then
    (ExecResult.outcome (ExecOutcome.failure "EmptyCode" "代码为空" none none), [])
  else
    let _security_result := check_code_security code
    let processed_code := preprocess code
    let safe_locals := context
    let ev := [ExecEvent.securityCheck, ExecEvent.preprocessText, ExecEvent.buildNamespace]
    match run processed_code safe_locals with
    | RunBehavior.ok fl out =>
        (ExecResult.outcome (success_outcome out fl),
          ev ++ [ExecEvent.execAttempt processed_code])
    | RunBehavior.diverges =>
        (ExecResult.diverges, ev ++ [ExecEvent.execAttempt processed_code])
    | RunBehavior.raises e la out =>
        if e.isExceptionClass then
          if processed_code ≠ code then
            match run code la with
            | RunBehavior.ok fl out2 =>
                (ExecResult.outcome (success_outcome (out ++ out2) fl),
                  ev ++ [ExecEvent.execAttempt processed_code, ExecEvent.execAttempt code])
            | RunBehavior.diverges =>
                (ExecResult.diverges,
                  ev ++ [ExecEvent.execAttempt processed_code, ExecEvent.execAttempt code])
            | RunBehavior.raises e2 _ out2 =>
                if e2.isExceptionClass then
                  (ExecResult.outcome (failure_outcome e2 (out ++ out2)),
                    ev ++ [ExecEvent.execAttempt processed_code, ExecEvent.execAttempt code])
                else
                  (ExecResult.propagated e2,
                    ev ++ [ExecEvent.execAttempt processed_code, ExecEvent.execAttempt code])
          else
            (ExecResult.outcome (failure_outcome e out),
              ev ++ [ExecEvent.execAttempt processed_code])
        else
          (ExecResult.propagated e, ev ++ [ExecEvent.execAttempt processed_code])

/-- The texts of the `compile` + `exec` attempts among the recorded
engine steps. -/
def attempt_texts (evs : List ExecEvent) : List String :=
  evs.filterMap (fun ev =>
    match ev with
    | ExecEvent.execAttempt t => some t
    | _ => none)

/-- What a caller of `ResourceMonitor.check_memory_usage` observes: the
method returns normally (with whatever exception its internal
`except Exception` caught and logged, if any), or an exception actually
reaches the caller. -/
inductive CheckMemoryResult where
  | returnedNormally (logged : Option PyExc)
  | raisedToCaller (e : PyExc)
deriving DecidableEq, Repr

/-- The body of the `try:` block of `ResourceMonitor.check_memory_usage`
(lines 131-144): sample `resource.getrusage` (a failing sample raises,
e.g. an `OSError`), convert `ru_maxrss` to bytes (`ru_maxrss` is already
bytes on macOS, kilobytes on Linux), and raise
`MemoryLimitError(limit_mb, usage_mb)` when the usage exceeds
`self.max_memory * 1.5`.  The comparison `bytes > max_memory * 1.5` is
embedded exactly as `2 * bytes > 3 * max_memory`; `int(x / 2**20)` on
positive values is floor division. -/
def check_memory_usage_body (isDarwin : Bool) (max_memory : Nat)
    (sample : Except String Nat) : Except PyExc Unit :=
  match sample with
  | Except.error msg => Except.error (PyExc.otherExc "OSError" msg)
  | Except.ok ru_maxrss =>
      let memory_usage_bytes := if isDarwin then ru_maxrss else ru_maxrss * 1024
      if 2 * memory_usage_bytes > 3 * max_memory then
        Except.error (PyExc.memoryLimit (max_memory / (1024 * 1024))
          (memory_usage_bytes / (1024 * 1024)))
      else
        Except.ok ()

/-- `ResourceMonitor.check_memory_usage` (lines 129-147): the whole body,
including the deliberate `raise MemoryLimitError(...)`, sits inside
`try: ... except Exception as e: logger.debug(...)`, so every
`Exception`-class error raised inside — the `MemoryLimitError` included —
is caught and logged and the method returns normally. -/
def check_memory_usage (isDarwin : Bool) (max_memory : Nat)
    (sample : Except String Nat) : CheckMemoryResult :=
  match check_memory_usage_body isDarwin max_memory sample with
  | Except.ok _ => CheckMemoryResult.returnedNormally none
  | Except.error e =>
      if e.isExceptionClass then CheckMemoryResult.returnedNormally (some e)
      else CheckMemoryResult.raisedToCaller e

/-- A heap of Python dict objects, used to state the aliasing facts of
claim C8: addresses are allocation order, `mem` gives each address's
current entries. -/
structure DictStore (V : Type) where
  next : Nat
  mem : Nat → List (String × V)

/-- Allocate a fresh dict object holding `d`. -/
def DictStore.alloc {V : Type} (s : DictStore V) (d : List (String × V)) :
    DictStore V × Nat :=
  ({ next := s.next + 1, mem := fun a => if a = s.next then d else s.mem a }, s.next)

/-- Overwrite the entries of the dict object at address `a` (how a run's
`exec` mutates its locals dict in place). -/
def DictStore.write {V : Type} (s : DictStore V) (a : Nat) (d : List (String × V)) :
    DictStore V :=
  { next := s.next, mem := fun x => if x = a then d else s.mem x }

/-- Lines 417-421 of `execute_code`: `safe_locals = {}` allocates a fresh
dict object, and `safe_locals.update(context)` copies the caller's
entries into it (an empty `context` skips the update with the same
content).  The run's locals dict is therefore a new object, never an
alias of the caller's `context` dict. -/
def build_safe_locals {V : Type} (s : DictStore V) (contextAddr : Nat) :
    DictStore V × Nat :=
  let s1 := (DictStore.alloc s []).1
  let a := (DictStore.alloc s []).2
  (DictStore.write s1 a (s1.mem contextAddr), a)

/-- A run oracle in which every attempt raises `SystemExit`, as
`exec("raise SystemExit", ...)` does. -/
def sysExitRun : String → List (String × Nat) → RunBehavior Nat :=
  fun _ _ => RunBehavior.raises (PyExc.baseExc "SystemExit" "") [] ""

/-- A run oracle in which every attempt terminates normally with empty
locals and no output. -/
def okRun : String → List (String × Nat) → RunBehavior Nat :=
  fun _ _ => RunBehavior.ok [] ""

/-- A run oracle in which every attempt loops forever, as
`exec("while True: pass", ...)` does. -/
def divergeRun : String → List (String × Nat) → RunBehavior Nat :=
  fun _ _ => RunBehavior.diverges

/-- C1 counterexample: the snippet `raise SystemExit` makes
`execute_code` propagate the exception to its caller instead of
returning an outcome dictionary — `SystemExit` is a `BaseException` that
none of the `except` clauses (all `Exception`-based) catches. -/
theorem c1_counterexample :
    ¬ ∃ o : ExecOutcome Nat,
      (execute_code id sysExitRun "raise SystemExit" []).1 = ExecResult.outcome o := by
  intro hex
  obtain ⟨o, ho⟩ := hex
  have h1 : (execute_code id sysExitRun "raise SystemExit" []).1
      = ExecResult.propagated (PyExc.baseExc "SystemExit" "") := by decide
  rw [h1] at ho
  exact ExecResult.noConfusion ho

/-- C1 (amended): for every input code text and context mapping,
`execute_code` returns a structured outcome dictionary and lets no
exception propagate past its boundary, provided every execution attempt
terminates and raises only `Exception`-class errors (not
`BaseException`-only ones such as `SystemExit` / `KeyboardInterrupt`). -/
theorem c1_structured_outcome {V : Type} (preprocess : String → String)
    (run : String → List (String × V) → RunBehavior V)
    (code : String) (context : List (String × V))
    (hterm : ∀ t l, run t l ≠ RunBehavior.diverges)
    (hexc : ∀ t l e la out, run t l = RunBehavior.raises e la out →
      e.isExceptionClass = true) :
    ∃ o : ExecOutcome V,
      (execute_code preprocess run code context).1 = ExecResult.outcome o := by
  by_cases hc : (code = "" ∨ code.data.all Char.isWhitespace = true)
  · refine ⟨ExecOutcome.failure "EmptyCode" "代码为空" none none, ?_⟩
    simp only [execute_code]
    rw [if_pos hc]
  · cases h1 : run (preprocess code) context with
    | ok fl out =>
        refine ⟨success_outcome out fl, ?_⟩
        simp only [execute_code]
        rw [if_neg hc]
        simp [h1]
    | diverges => exact absurd h1 (hterm _ _)
    | raises e la out =>
        have he := hexc _ _ _ _ _ h1
        by_cases hpc : preprocess code = code
        · rw [hpc] at h1
          refine ⟨failure_outcome e out, ?_⟩
          simp only [execute_code]
          rw [if_neg hc]
          simp [hpc, h1, he]
        · cases h2 : run code la with
          | ok fl2 out2 =>
              refine ⟨success_outcome (out ++ out2) fl2, ?_⟩
              simp only [execute_code]
              rw [if_neg hc]
              simp [h1, he, hpc, h2]
          | diverges => exact absurd h2 (hterm _ _)
          | raises e2 la2 out2 =>
              have he2 := hexc _ _ _ _ _ h2
              refine ⟨failure_outcome e2 (out ++ out2), ?_⟩
              simp only [execute_code]
              rw [if_neg hc]
              simp [h1, he, hpc, h2, he2]

/-- C1 witness: a concrete terminating run produces an outcome
dictionary. -/
theorem c1_witness :
    ∃ o : ExecOutcome Nat,
      (execute_code id okRun "x = 1" []).1 = ExecResult.outcome o :=
  c1_structured_outcome id okRun "x = 1" []
    (by intro t l h; simp [okRun] at h)
    (by intro t l e la out h; simp [okRun] at h)

/-- C2: `execute_code` contains no timeout machinery — it never enters
`ResourceMonitor.monitor_execution`, arms no alarm, and so a snippet
that loops forever makes the call itself never return; no
`Failure` outcome of kind `TimeoutError` is produced at the deadline. -/
theorem c2_infinite_loop_never_returns :
    (execute_code id divergeRun "while True: pass" []).1 = ExecResult.diverges := by
  decide

/-- C3: for every empty or whitespace-only input, `execute_code` returns
the `EmptyCode` failure dictionary immediately, with no engine step
invoked: no security check, no preprocessing, no namespace construction,
no execution attempt. -/
theorem c3_empty_code_fast_path {V : Type} (preprocess : String → String)
    (run : String → List (String × V) → RunBehavior V)
    (code : String) (context : List (String × V))
    (h : code.data.all Char.isWhitespace = true) :
    execute_code preprocess run code context
      = (ExecResult.outcome (ExecOutcome.failure "EmptyCode" "代码为空" none none),
          []) := by
  simp [execute_code, h]

/-- C3 witness: a whitespace-only input takes the fast path. -/
theorem c3_witness :
    execute_code id okRun "   " []
      = (ExecResult.outcome (ExecOutcome.failure "EmptyCode" "代码为空" none none),
          []) :=
  c3_empty_code_fast_path id okRun "   " [] (by decide)

/-- C5: when running the preprocessed text raises an `Exception`-class
error, `execute_code` compiles and runs the original text exactly once
more if it differs from the preprocessed text, and makes no second
attempt if the two texts are equal. -/
theorem c5_retry_original_once {V : Type} (preprocess : String → String)
    (run : String → List (String × V) → RunBehavior V)
    (code : String) (context : List (String × V))
    (e : PyExc) (la : List (String × V)) (out : String)
    (hnonempty : ¬ (code = "" ∨ code.data.all Char.isWhitespace = true))
    (hr : run (preprocess code) context = RunBehavior.raises e la out)
    (he : e.isExceptionClass = true) :
    attempt_texts (execute_code preprocess run code context).2
      = if preprocess code = code then [code]
        else [preprocess code, code] := by
  by_cases hpc : preprocess code = code
  · rw [hpc] at hr
    simp only [execute_code]
    rw [if_neg hnonempty]
    simp [hpc, hr, he, attempt_texts]
  · cases h2 : run code la with
    | ok fl2 out2 =>
        simp only [execute_code]
        rw [if_neg hnonempty]
        simp [hpc, hr, he, h2, attempt_texts]
    | diverges =>
        simp only [execute_code]
        rw [if_neg hnonempty]
        simp [hpc, hr, he, h2, attempt_texts]
    | raises e2 la2 out2 =>
        simp only [execute_code]
        rw [if_neg hnonempty]
        cases he2 : e2.isExceptionClass <;>
          simp [hpc, hr, he, h2, he2, attempt_texts]

/-- A text transformer that appends a space (a preprocessed text that
differs from the original), paired with a run oracle that fails on the
padded text and succeeds on the original. -/
def padded (s : String) : String := s ++ " "

/-- Run oracle failing exactly on the padded text `"x = 1 "`. -/
def failThenOkRun : String → List (String × Nat) → RunBehavior Nat :=
  fun t _ =>
    if t = "x = 1 " then RunBehavior.raises (PyExc.valueError "boom") [] ""
    else RunBehavior.ok [] ""

/-- C5 witness: a failing preprocessed attempt on a differing text is
followed by exactly one attempt with the original text. -/
theorem c5_witness :
    attempt_texts (execute_code padded failThenOkRun "x = 1" []).2
      = if padded "x = 1" = "x = 1" then ["x = 1"]
        else [padded "x = 1", "x = 1"] :=
  c5_retry_original_once padded failThenOkRun "x = 1" []
    (PyExc.valueError "boom") [] "" (by decide) (by decide) rfl

/-- C8: the run's locals dict is a fresh object seeded with a copy of the
caller's context entries: it is a different address, the caller's dict
still holds its original entries after the engine builds the namespace
and after the run mutates its locals arbitrarily, and a second
independent run built from the same context dict starts from the
original entries regardless of the first run's mutations. -/
theorem c8_context_copied_and_isolated {V : Type} (s : DictStore V) (ca : Nat)
    (h : ca < s.next) (d : List (String × V)) :
    (build_safe_locals s ca).2 ≠ ca
    ∧ ((build_safe_locals s ca).1).mem ((build_safe_locals s ca).2) = s.mem ca
    ∧ (((build_safe_locals s ca).1).write ((build_safe_locals s ca).2) d).mem ca
        = s.mem ca
    ∧ ((build_safe_locals (((build_safe_locals s ca).1).write
          ((build_safe_locals s ca).2) d) ca).1).mem
        ((build_safe_locals (((build_safe_locals s ca).1).write
          ((build_safe_locals s ca).2) d) ca).2)
        = s.mem ca := by
  have h1 : ¬ (ca = s.next) := by omega
  have h2 : ¬ (ca = s.next + 1) := by omega
  refine ⟨?_, ?_, ?_, ?_⟩
  · simp only [build_safe_locals, DictStore.alloc]
    omega
  · simp [build_safe_locals, DictStore.alloc, DictStore.write, h1]
  · simp [build_safe_locals, DictStore.alloc, DictStore.write, h1]
  · simp [build_safe_locals, DictStore.alloc, DictStore.write, h1, h2]

/-- A one-object heap whose only dict (the caller's context) is at
address 0 and holds one binding. -/
def store1 : DictStore Nat := { next := 1, mem := fun _ => [("x", 5)] }

/-- C8 witness: the isolation facts at a concrete heap, context address
and mutation. -/
theorem c8_witness :
    (build_safe_locals store1 0).2 ≠ 0
    ∧ ((build_safe_locals store1 0).1).mem ((build_safe_locals store1 0).2)
        = store1.mem 0
    ∧ (((build_safe_locals store1 0).1).write ((build_safe_locals store1 0).2)
          [("x", 6)]).mem 0 = store1.mem 0
    ∧ ((build_safe_locals (((build_safe_locals store1 0).1).write
          ((build_safe_locals store1 0).2) [("x", 6)]) 0).1).mem
        ((build_safe_locals (((build_safe_locals store1 0).1).write
          ((build_safe_locals store1 0).2) [("x", 6)]) 0).2)
        = store1.mem 0 :=
  c8_context_copied_and_isolated store1 0 (by decide) [("x", 6)]

lemma failure_outcome_ne_success {V : Type} (e : PyExc) (out o : String)
    (r : Option V) (l : List (String × V)) :
    failure_outcome e out ≠ ExecOutcome.success o r l := by
  cases e <;> simp [failure_outcome]

/-- C9: in every success outcome `execute_code` returns, the reported
locals mapping contains no name beginning with the engine's private
underscore prefix. -/
theorem c9_success_locals_no_private_names {V : Type} (preprocess : String → String)
    (run : String → List (String × V) → RunBehavior V)
    (code : String) (context : List (String × V))
    (out : String) (res : Option V) (locs : List (String × V))
    (h : (execute_code preprocess run code context).1
        = ExecResult.outcome (ExecOutcome.success out res locs)) :
    ∀ kv ∈ locs, starts_with_underscore kv.1 = false := by
  by_cases hc : (code = "" ∨ code.data.all Char.isWhitespace = true)
  · simp only [execute_code] at h
    rw [if_pos hc] at h
    simp at h
  · simp only [execute_code] at h
    rw [if_neg hc] at h
    cases hrun : run (preprocess code) context with
    | ok fl out1 =>
        simp [hrun, success_outcome] at h
        obtain ⟨h1, h2, h3⟩ := h
        subst h3
        intro kv hkv
        rw [List.mem_filter] at hkv
        simpa using hkv.2
    | diverges => simp [hrun] at h
    | raises e la out1 =>
        by_cases hexc : e.isExceptionClass = true
        · by_cases hpc : preprocess code = code
          · rw [hpc] at hrun
            simp [hrun, hpc, hexc, failure_outcome_ne_success] at h
          · simp only [hrun] at h
            cases hrun2 : run code la with
            | ok fl2 out2 =>
                simp [hrun2, hexc, hpc, success_outcome] at h
                obtain ⟨h1, h2, h3⟩ := h
                subst h3
                intro kv hkv
                rw [List.mem_filter] at hkv
                simpa using hkv.2
            | diverges => simp [hrun2, hexc, hpc] at h
            | raises e2 la2 out2 =>
                by_cases hexc2 : e2.isExceptionClass = true <;>
                  simp [hrun2, hexc, hpc, hexc2, failure_outcome_ne_success] at h
        · simp [hrun, hexc] at h

/-- Run oracle terminating with one public and one private binding. -/
def localsRun : String → List (String × Nat) → RunBehavior Nat :=
  fun _ _ => RunBehavior.ok [("y", 1), ("_hidden", 2)] ""

/-- C9 witness: the success outcome of a concrete run keeps the public
name and its key does not start with an underscore. -/
theorem c9_witness : starts_with_underscore "y" = false :=
  c9_success_locals_no_private_names id localsRun "y = 1" [] "" none [("y", 1)]
    (by decide) ("y", 1) (by simp)

/-- C4: a memory reading above the 1.5-scaled ceiling makes
`check_memory_usage` build `MemoryLimitError(2048, 4096)` (configured
limit and observed usage, both in MB) — but the method's own
`except Exception` catches it and only logs, so the method returns
normally and no exception ever reaches its caller.  Concrete failing
input: Linux, `max_memory = 2048 MiB`, sampled `ru_maxrss = 4 GiB`. -/
theorem c4_memory_limit_error_swallowed :
    check_memory_usage false (2048 * 1024 * 1024) (Except.ok (4096 * 1024))
      = CheckMemoryResult.returnedNormally (some (PyExc.memoryLimit 2048 4096))
    ∧ ∀ e : PyExc,
        check_memory_usage false (2048 * 1024 * 1024) (Except.ok (4096 * 1024))
          ≠ CheckMemoryResult.raisedToCaller e := by
  have h1 : check_memory_usage false (2048 * 1024 * 1024) (Except.ok (4096 * 1024))
      = CheckMemoryResult.returnedNormally (some (PyExc.memoryLimit 2048 4096)) := by
    decide
  exact ⟨h1, fun e he => by rw [h1] at he; exact CheckMemoryResult.noConfusion he⟩
